import Mathlib

/-!
Verification of the ranked-retrieval scoring core of the xapian repository:
the statistics-negotiation bit-flag protocol, the BM25 / BM25+ constructor
logic, the synonym combinator posting list, and spec-modelled concrete
scoring schemes.  Definitions are shallow embeddings of the corresponding
C++ source (weight.h and synonympostlist.cc); a few definitions are
modelled from the specification where the implementation files are not
part of the sampled sources (each such definition says so in its doc
comment).
-/

namespace XapianVerify

/-- The statistics a weighting scheme can declare needing, from the
`stat_flags` enum in weight.h.  Several distinct flags share a numeric
value (they are fetched together), which is why the flag names are kept
as separate constructors with a separate value map. -/
inductive StatFlag
  | collection_size
  | rset_size
  | average_length
  | termfreq
  | reltermfreq
  | query_length
  | wqf
  | wdf
  | doc_length
  | doc_length_min
  | doc_length_max
  | wdf_max
  | collection_freq
  | unique_terms
  | total_length
  | wdf_doc_max
  | unique_terms_min
  | unique_terms_max
  | db_doc_length_min
  | db_doc_length_max
  | db_unique_terms_min
  | db_unique_terms_max
  | db_wdf_max
  | is_boolweight
deriving DecidableEq, Repr

/-- The numeric value of each flag, exactly as assigned in the
`stat_flags` enum in weight.h (note the shared values: TERMFREQ,
RELTERMFREQ and COLLECTION_FREQ are all 1; COLLECTION_SIZE, RSET_SIZE,
QUERY_LENGTH and WQF are all 0). -/
def statValue : StatFlag → Nat
  | .collection_size => 0
  | .rset_size => 0
  | .average_length => 4
  | .termfreq => 1
  | .reltermfreq => 1
  | .query_length => 0
  | .wqf => 0
  | .wdf => 2
  | .doc_length => 8
  | .doc_length_min => 16
  | .doc_length_max => 32
  | .wdf_max => 64
  | .collection_freq => 1
  | .unique_terms => 128
  | .total_length => 256
  | .wdf_doc_max => 512
  | .unique_terms_min => 1024
  | .unique_terms_max => 2048
  | .db_doc_length_min => 4096
  | .db_doc_length_max => 8192
  | .db_unique_terms_min => 16384
  | .db_unique_terms_max => 32768
  | .db_wdf_max => 65536
  | .is_boolweight => 2147483648

/-- `Weight::need_stat` from weight.h:
`stats_needed = stat_flags(stats_needed | flag);`.
The `stats_needed` member is a single bitmask. -/
def need_stat (s fl : Nat) : Nat := s ||| fl

/-- `Weight::get_sumpart_needs_doclength_`: `stats_needed & DOC_LENGTH`. -/
def get_sumpart_needs_doclength_ (s : Nat) : Bool :=
  s &&& statValue .doc_length != 0

/-- `Weight::get_sumpart_needs_wdf_`: `stats_needed & WDF`. -/
def get_sumpart_needs_wdf_ (s : Nat) : Bool :=
  s &&& statValue .wdf != 0

/-- `Weight::get_sumpart_needs_uniqueterms_`: `stats_needed & UNIQUE_TERMS`. -/
def get_sumpart_needs_uniqueterms_ (s : Nat) : Bool :=
  s &&& statValue .unique_terms != 0

/-- `Weight::get_sumpart_needs_wdfdocmax_`: `stats_needed & WDF_DOC_MAX`. -/
def get_sumpart_needs_wdfdocmax_ (s : Nat) : Bool :=
  s &&& statValue .wdf_doc_max != 0

/-- `Weight::is_bool_weight_`: `stats_needed & IS_BOOLWEIGHT_`. -/
def is_bool_weight_ (s : Nat) : Bool :=
  s &&& statValue .is_boolweight != 0

/-- Fold a sequence of `need_stat` calls (a constructor body) into the
resulting `stats_needed` bitmask, starting from the default-constructed
empty mask (`Weight() : stats_needed() { }`). -/
def statsMaskOf (trace : List StatFlag) : Nat :=
  trace.foldl (fun s f => need_stat s (statValue f)) 0

/-- Claim C7: need_stat is additive, idempotent and monotonic: declaring a
flag yields the bitwise union of the previous declared bit-set and the
flag's bits, declaring twice equals declaring once, and no sequence of
need_stat calls ever clears a previously declared bit. -/
theorem need_stat_additive_idempotent_monotonic (s fl : Nat) :
    (∀ i, (need_stat s fl).testBit i = (s.testBit i || fl.testBit i)) ∧
    need_stat (need_stat s fl) fl = need_stat s fl ∧
    (∀ (l : List Nat) (i : Nat), s.testBit i = true →
      (l.foldl need_stat s).testBit i = true) := by
  refine ⟨fun i => ?_, ?_, fun l => ?_⟩
  · simp [need_stat, Nat.testBit_or]
  · simp [need_stat, Nat.or_assoc]
  · induction l generalizing s with
    | nil => intro i h; simpa using h
    | cons a l ih =>
      intro i h
      have : (need_stat s a).testBit i = true := by
        simp [need_stat, Nat.testBit_or, h]
      simpa [List.foldl] using ih (need_stat s a) i this

/-- Witness for C7 at concrete inputs. -/
theorem need_stat_additive_idempotent_monotonic_witness :
    Nat.testBit ([2, 4].foldl need_stat 1) 0 = true :=
  (need_stat_additive_idempotent_monotonic 1 2).2.2 [2, 4] 0 (by decide)

/-- Claim C8 (amended): declaring a statistic flag leaves the declared
status of every flag with disjoint bit value unchanged; flags that share
numeric identity are conflated by the single bitmask (see the
counterexample). -/
theorem need_stat_frame (f g : StatFlag)
    (h : statValue f &&& statValue g = 0) (s : Nat) :
    need_stat s (statValue f) &&& statValue g = s &&& statValue g := by
  apply Nat.eq_of_testBit_eq
  intro i
  have hb : (statValue f).testBit i = false ∨ (statValue g).testBit i = false := by
    by_contra hc
    push_neg at hc
    obtain ⟨h1, h2⟩ := hc
    have : (statValue f &&& statValue g).testBit i = true := by
      simp [Nat.testBit_and]
      exact ⟨by simpa using h1, by simpa using h2⟩
    rw [h] at this
    simp [Nat.zero_testBit] at this
  rcases hb with hb | hb <;>
    simp [need_stat, Nat.testBit_and, Nat.testBit_or, hb]

/-- Witness for C8's amended theorem at concrete flags. -/
theorem need_stat_frame_witness :
    need_stat 0 (statValue .wdf) &&& statValue .doc_length =
      0 &&& statValue .doc_length :=
  need_stat_frame .wdf .doc_length (by decide) 0

/-- Counterexample for C8 as stated: TERMFREQ and RELTERMFREQ are distinct
flags sharing numeric value 1; on an instance with an empty declared set,
need_stat(TERMFREQ) makes RELTERMFREQ test as declared. -/
theorem need_stat_frame_cex :
    StatFlag.termfreq ≠ StatFlag.reltermfreq ∧
    (0 : Nat) &&& statValue .reltermfreq = 0 ∧
    need_stat 0 (statValue .termfreq) &&& statValue .reltermfreq ≠ 0 := by
  decide

/-- Parameter sanitization shared by the BM25Weight and BM25PlusWeight
constructors in weight.h: `if (param_k < 0) param_k = 0;` (applied to k1,
k2, k3, and for BM25+ also to delta). -/
def bm25SanK (k : ℚ) : ℚ := if k < 0 then 0 else k

/-- Parameter sanitization for b in the BM25Weight and BM25PlusWeight
constructors: `if (param_b < 0) { param_b = 0; } else if (param_b > 1)
{ param_b = 1; }`. -/
def bm25SanB (b : ℚ) : ℚ := if b < 0 then 0 else if b > 1 then 1 else b

/-- The stored parameters of a BM25Weight after construction
(weight.h lines 1181-1192). -/
structure BM25Ctor where
  k1 : ℚ
  k2 : ℚ
  k3 : ℚ
  b : ℚ
  min_normlen : ℚ
deriving Repr

/-- The `BM25Weight(k1, k2, k3, b, min_normlen)` constructor's parameter
handling: negatives of k1/k2/k3 zeroed, b clamped to [0,1], min_normlen
stored unchanged. -/
def BM25Weight.construct (k1 k2 k3 b mnl : ℚ) : BM25Ctor :=
  { k1 := bm25SanK k1, k2 := bm25SanK k2, k3 := bm25SanK k3,
    b := bm25SanB b, min_normlen := mnl }

/-- The stored parameters of a BM25PlusWeight after construction
(weight.h lines 1302-1315). -/
structure BM25PlusCtor where
  k1 : ℚ
  k2 : ℚ
  k3 : ℚ
  b : ℚ
  min_normlen : ℚ
  delta : ℚ
deriving Repr

/-- The `BM25PlusWeight(k1, k2, k3, b, min_normlen, delta)` constructor's
parameter handling: negatives of k1/k2/k3/delta zeroed, b clamped to
[0,1], min_normlen stored unchanged. -/
def BM25PlusWeight.construct (k1 k2 k3 b mnl delta : ℚ) : BM25PlusCtor :=
  { k1 := bm25SanK k1, k2 := bm25SanK k2, k3 := bm25SanK k3,
    b := bm25SanB b, min_normlen := mnl, delta := bm25SanK delta }

/-- The sequence of need_stat calls made by the BM25Weight(k1,k2,k3,b,mnl)
constructor (weight.h lines 1193-1208), with the conditions evaluated on
the already sanitized parameters exactly as in the source. -/
def bm25NeedTrace (k1 k2 k3 b : ℚ) : List StatFlag :=
  let pk1 := bm25SanK k1
  let pk2 := bm25SanK k2
  let pk3 := bm25SanK k3
  let pb := bm25SanB b
  [.collection_size, .rset_size, .termfreq, .reltermfreq, .wdf, .wdf_max] ++
  (if pk2 ≠ 0 ∨ (pk1 ≠ 0 ∧ pb ≠ 0) then [.doc_length_min, .average_length]
   else []) ++
  (if pk1 ≠ 0 ∧ pb ≠ 0 then [.doc_length] else []) ++
  (if pk2 ≠ 0 then [.doc_length, .query_length] else []) ++
  (if pk3 ≠ 0 then [.wqf] else [])

/-- The sequence of need_stat calls made by the
BM25PlusWeight(k1,k2,k3,b,mnl,delta) constructor (weight.h lines
1316-1331); delta does not influence which statistics are declared. -/
def bm25PlusNeedTrace (k1 k2 k3 b _delta : ℚ) : List StatFlag :=
  let pk1 := bm25SanK k1
  let pk2 := bm25SanK k2
  let pk3 := bm25SanK k3
  let pb := bm25SanB b
  [.collection_size, .rset_size, .termfreq, .reltermfreq, .wdf, .wdf_max] ++
  (if pk2 ≠ 0 ∨ (pk1 ≠ 0 ∧ pb ≠ 0) then [.doc_length_min, .average_length]
   else []) ++
  (if pk1 ≠ 0 ∧ pb ≠ 0 then [.doc_length] else []) ++
  (if pk2 ≠ 0 then [.doc_length, .query_length] else []) ++
  (if pk3 ≠ 0 then [.wqf] else [])

/-- The stats_needed bitmask resulting from the BM25Weight constructor. -/
def bm25StatsNeeded (k1 k2 k3 b : ℚ) : Nat :=
  statsMaskOf (bm25NeedTrace k1 k2 k3 b)

/-- The stats_needed bitmask resulting from the BM25PlusWeight
constructor. -/
def bm25PlusStatsNeeded (k1 k2 k3 b delta : ℚ) : Nat :=
  statsMaskOf (bm25PlusNeedTrace k1 k2 k3 b delta)

/-- Claim C10: the BM25Weight and BM25PlusWeight constructors sanitize
out-of-range parameters instead of failing: negative k1, k2, k3 (and
delta for BM25+) become 0, b is clamped into [0,1], and therefore every
constructed instance satisfies k1, k2, k3 ≥ 0 (and delta ≥ 0) and
b ∈ [0,1]. -/
theorem bm25_ctor_sanitizes (k1 k2 k3 b mnl delta : ℚ) :
    (0 ≤ (BM25Weight.construct k1 k2 k3 b mnl).k1 ∧
     0 ≤ (BM25Weight.construct k1 k2 k3 b mnl).k2 ∧
     0 ≤ (BM25Weight.construct k1 k2 k3 b mnl).k3 ∧
     0 ≤ (BM25Weight.construct k1 k2 k3 b mnl).b ∧
     (BM25Weight.construct k1 k2 k3 b mnl).b ≤ 1) ∧
    (0 ≤ (BM25PlusWeight.construct k1 k2 k3 b mnl delta).k1 ∧
     0 ≤ (BM25PlusWeight.construct k1 k2 k3 b mnl delta).k2 ∧
     0 ≤ (BM25PlusWeight.construct k1 k2 k3 b mnl delta).k3 ∧
     0 ≤ (BM25PlusWeight.construct k1 k2 k3 b mnl delta).delta ∧
     0 ≤ (BM25PlusWeight.construct k1 k2 k3 b mnl delta).b ∧
     (BM25PlusWeight.construct k1 k2 k3 b mnl delta).b ≤ 1) ∧
    (k1 < 0 → bm25SanK k1 = 0) ∧ (0 ≤ k1 → bm25SanK k1 = k1) ∧
    (b < 0 → bm25SanB b = 0) ∧ (1 < b → bm25SanB b = 1) ∧
    (0 ≤ b → b ≤ 1 → bm25SanB b = b) := by
  have hk : ∀ k : ℚ, 0 ≤ bm25SanK k := by
    intro k
    unfold bm25SanK
    split <;> [exact le_refl 0; linarith [not_lt.mp (by assumption)]]
  have hb0 : 0 ≤ bm25SanB b := by
    unfold bm25SanB
    split
    · exact le_refl 0
    · split
      · norm_num
      · linarith [not_lt.mp (by assumption)]
  have hb1 : bm25SanB b ≤ 1 := by
    unfold bm25SanB
    split
    · norm_num
    · split
      · exact le_refl 1
      · linarith [not_lt.mp (by assumption)]
  refine ⟨⟨hk k1, hk k2, hk k3, hb0, hb1⟩,
          ⟨hk k1, hk k2, hk k3, hk delta, hb0, hb1⟩, ?_, ?_, ?_, ?_, ?_⟩
  · intro h; simp [bm25SanK, h]
  · intro h; simp [bm25SanK, not_lt.mpr h]
  · intro h; simp [bm25SanB, h]
  · intro h
    have : ¬ b < 0 := by linarith
    simp [bm25SanB, this, h]
  · intro h0 h1
    have : ¬ b < 0 := not_lt.mpr h0
    have h2 : ¬ b > 1 := not_lt.mpr h1
    simp [bm25SanB, this, h2]

/-- Witness for C10 at concrete out-of-range parameters. -/
theorem bm25_ctor_sanitizes_witness :
    bm25SanK (-3) = 0 ∧ bm25SanB 2 = 1 ∧
    0 ≤ (BM25Weight.construct (-3) (-1) 0 2 (1/2)).k1 := by
  have h := bm25_ctor_sanitizes (-3) (-1) 0 2 (1/2) 1
  exact ⟨h.2.2.1 (by norm_num), h.2.2.2.2.2.1 (by norm_num), h.1.1⟩

/-- Counterexample for C6 as stated: BM25Weight(0, 1, 1, 1/2, 1/2) has
k1·b = 0 yet DOC_LENGTH (and DOC_LENGTH_MIN, AVERAGE_LENGTH) are
declared, because the nonzero k2 parameter also requires them. -/
theorem bm25_stats_cex :
    (0 : ℚ) * (1/2) = 0 ∧
    StatFlag.doc_length ∈ bm25NeedTrace 0 1 1 (1/2) ∧
    get_sumpart_needs_doclength_ (bm25StatsNeeded 0 1 1 (1/2)) = true := by
  refine ⟨by norm_num, ?_, ?_⟩ <;>
    simp [bm25NeedTrace, bm25StatsNeeded, bm25SanK, bm25SanB, statsMaskOf,
          need_stat, statValue, get_sumpart_needs_doclength_]

/-- Claim C6 (amended): the BM25Weight and BM25PlusWeight constructors
declare only the statistics their nonzero parameters require: when
k1·b = 0 and additionally k2 = 0, none of the document-length statistics
(DOC_LENGTH, DOC_LENGTH_MIN, AVERAGE_LENGTH) is declared (nonzero k2 by
itself requires them); and when k3 = 0 the constructor does not invoke
need_stat on WQF. -/
theorem bm25_stats_cost_avoidance (k1 k2 k3 b delta : ℚ) :
    (k1 * b = 0 → k2 = 0 →
      (StatFlag.doc_length ∉ bm25NeedTrace k1 k2 k3 b ∧
       StatFlag.doc_length_min ∉ bm25NeedTrace k1 k2 k3 b ∧
       StatFlag.average_length ∉ bm25NeedTrace k1 k2 k3 b ∧
       get_sumpart_needs_doclength_ (bm25StatsNeeded k1 k2 k3 b) = false) ∧
      (StatFlag.doc_length ∉ bm25PlusNeedTrace k1 k2 k3 b delta ∧
       StatFlag.doc_length_min ∉ bm25PlusNeedTrace k1 k2 k3 b delta ∧
       StatFlag.average_length ∉ bm25PlusNeedTrace k1 k2 k3 b delta ∧
       get_sumpart_needs_doclength_
         (bm25PlusStatsNeeded k1 k2 k3 b delta) = false)) ∧
    (k3 = 0 → StatFlag.wqf ∉ bm25NeedTrace k1 k2 k3 b ∧
       StatFlag.wqf ∉ bm25PlusNeedTrace k1 k2 k3 b delta) := by
  constructor
  · intro hk hk2
    have hpk2 : bm25SanK k2 = 0 := by simp [bm25SanK, hk2]
    have hcond : ¬ (bm25SanK k1 ≠ 0 ∧ bm25SanB b ≠ 0) := by
      rcases mul_eq_zero.mp hk with h | h
      · intro hc
        exact hc.1 (by simp [bm25SanK, h])
      · intro hc
        exact hc.2 (by simp [bm25SanB, h])
    have htr : bm25NeedTrace k1 k2 k3 b =
        [.collection_size, .rset_size, .termfreq, .reltermfreq, .wdf,
         .wdf_max] ++ (if bm25SanK k3 ≠ 0 then [.wqf] else []) := by
      simp only [bm25NeedTrace, hpk2, hcond, ne_eq, not_true_eq_false,
        false_or, if_false, ite_false, not_false_eq_true, if_true]
      simp
    have htrp : bm25PlusNeedTrace k1 k2 k3 b delta =
        [.collection_size, .rset_size, .termfreq, .reltermfreq, .wdf,
         .wdf_max] ++ (if bm25SanK k3 ≠ 0 then [.wqf] else []) := by
      simp only [bm25PlusNeedTrace, hpk2, hcond, ne_eq, not_true_eq_false,
        false_or, if_false, ite_false, not_false_eq_true, if_true]
      simp
    constructor
    · rw [show bm25StatsNeeded k1 k2 k3 b =
          statsMaskOf (bm25NeedTrace k1 k2 k3 b) from rfl, htr]
      by_cases h3 : bm25SanK k3 ≠ 0 <;>
        simp [h3, statsMaskOf, need_stat, statValue,
              get_sumpart_needs_doclength_] <;> decide
    · rw [show bm25PlusStatsNeeded k1 k2 k3 b delta =
          statsMaskOf (bm25PlusNeedTrace k1 k2 k3 b delta) from rfl, htrp]
      by_cases h3 : bm25SanK k3 ≠ 0 <;>
        simp [h3, statsMaskOf, need_stat, statValue,
              get_sumpart_needs_doclength_] <;> decide
  · intro h3
    have hk3 : bm25SanK k3 = 0 := by simp [bm25SanK, h3]
    constructor
    · unfold bm25NeedTrace
      simp only [hk3, ne_eq]
      split_ifs <;> simp_all
    · unfold bm25PlusNeedTrace
      simp only [hk3, ne_eq]
      split_ifs <;> simp_all

/-- Witness for C6's amended theorem at concrete parameters, exercising
both independent conditionals (the second at k1 = 1, k2 = 2, where only
k3 is zero). -/
theorem bm25_stats_cost_avoidance_witness :
    StatFlag.doc_length ∉ bm25NeedTrace 0 0 1 (1/2) ∧
    StatFlag.wqf ∉ bm25NeedTrace 1 2 0 (1/2) := by
  have h1 := bm25_stats_cost_avoidance 0 0 1 (1/2) 1
  have h2 := bm25_stats_cost_avoidance 1 2 0 (1/2) 1
  exact ⟨(h1.1 (by norm_num) rfl).1.1, (h2.2 rfl).1⟩

/-- A weighting scheme instance as owned by a SynonymPostList: its
declared stats_needed bitmask and its get_sumpart function (abstract
here; SynonymPostList::get_weight only forwards to it).  The argument
order of sumpart is (wdf, doclen, unique_terms, wdfdocmax) as in
weight.h. -/
structure WeightModel where
  stats_needed : Nat
  sumpart : Nat → Nat → Nat → Nat → ℚ
  maxpart : ℚ

/-- The wrapped child posting list of a SynonymPostList.  The
WrapperPostList base class implementation is not in the sampled sources,
so its operations are abstract function fields; `α` is the (result,
effect) type of an advance operation.  `count_matching_subqs` is the
child's own matching-subquery count (for an OR-combination of n
subqueries this would be the sum of the children's counts). -/
structure WrapperPL (α : Type) where
  next : ℚ → α
  skipTo : Nat → ℚ → α
  get_wdf : Nat
  get_docid : Nat
  count_matching_subqs : Nat

/-- A SynonymPostList (synonympostlist.cc): wraps one child posting list
and exclusively owns one weighting scheme instance.  `want_wdf` and
`want_wdfdocmax` cache `wt->get_sumpart_needs_wdf_()` and
`wt->get_sumpart_needs_wdfdocmax_()` (maintained by set_weight);
`needs_doclen` caches whether the enclosing tree needs document length
for the weight (`wt->get_sumpart_needs_doclength_()`).  `treeDoclen` is
the value `pltree->get_doclength(pl->get_docid())` that get_weight
fetches lazily when the weight needs wdfdocmax and doclen was passed
as 0. -/
structure SynonymPostList (α : Type) where
  pl : WrapperPL α
  wt : WeightModel
  want_wdf : Bool
  want_wdfdocmax : Bool
  needs_doclen : Bool
  treeDoclen : Nat

/-- `SynonymPostList::set_weight`: replaces the owned weight and
re-derives the cached want_wdf / want_wdfdocmax flags from the new
weight's declared needs. -/
def SynonymPostList.set_weight {α : Type} (spl : SynonymPostList α)
    (w : WeightModel) : SynonymPostList α :=
  { spl with
    wt := w,
    want_wdf := get_sumpart_needs_wdf_ w.stats_needed,
    want_wdfdocmax := get_sumpart_needs_wdfdocmax_ w.stats_needed }

/-- `SynonymPostList::next(w_min)`: discards w_min and calls
`WrapperPostList::next(0.0)`. -/
def SynonymPostList.next {α : Type} (spl : SynonymPostList α)
    (_w_min : ℚ) : α :=
  spl.pl.next 0

/-- `SynonymPostList::skip_to(did, w_min)`: discards w_min and calls
`WrapperPostList::skip_to(did, 0.0)`. -/
def SynonymPostList.skip_to {α : Type} (spl : SynonymPostList α)
    (did : Nat) (_w_min : ℚ) : α :=
  spl.pl.skipTo did 0

/-- The four arguments that `SynonymPostList::get_weight(doclen,
unique_terms, wdfdocmax)` passes to `wt->get_sumpart`. -/
structure SumpartArgs where
  wdf : Nat
  doclen : Nat
  unique_terms : Nat
  wdfdocmax : Nat
deriving DecidableEq, Repr

/-- The argument computation of `SynonymPostList::get_weight`: wdf starts
at 0; if want_wdf it is fetched from the child and, if needs_doclen,
clamped to doclen; if want_wdfdocmax, a zero doclen is replaced by the
document length fetched from the tree and wdfdocmax is overwritten with
doclen. -/
def SynonymPostList.get_weight_args {α : Type} (spl : SynonymPostList α)
    (doclen unique_terms wdfdocmax : Nat) : SumpartArgs :=
  let wdf : Nat :=
    if spl.want_wdf then
      let w := spl.pl.get_wdf
      if spl.needs_doclen then (if w > doclen then doclen else w) else w
    else 0
  let doclen2 : Nat :=
    if spl.want_wdfdocmax then
      (if doclen = 0 then spl.treeDoclen else doclen)
    else doclen
  let wdfdocmax2 : Nat :=
    if spl.want_wdfdocmax then doclen2 else wdfdocmax
  { wdf := wdf, doclen := doclen2, unique_terms := unique_terms,
    wdfdocmax := wdfdocmax2 }

/-- `SynonymPostList::get_weight`: forwards the computed arguments to the
owned weight's get_sumpart. -/
def SynonymPostList.get_weight {α : Type} (spl : SynonymPostList α)
    (doclen unique_terms wdfdocmax : Nat) : ℚ :=
  let a := spl.get_weight_args doclen unique_terms wdfdocmax
  spl.wt.sumpart a.wdf a.doclen a.unique_terms a.wdfdocmax

/-- `SynonymPostList::recalc_maxweight`: forwards the weight's
precomputed bound. -/
def SynonymPostList.recalc_maxweight {α : Type}
    (spl : SynonymPostList α) : ℚ :=
  spl.wt.maxpart

/-- `SynonymPostList::count_matching_subqs`: `return 1;`. -/
def SynonymPostList.count_matching_subqs {α : Type}
    (_spl : SynonymPostList α) : Nat :=
  1

/-- Claim C2 (amended): when the owned weight declares both WDF and
DOC_LENGTH needed, the wdf passed to get_sumpart is clamped so it never
exceeds the document length (neither the doclen argument given to
get_weight nor the doclen actually passed on to get_sumpart); when WDF
is declared but DOC_LENGTH is not, the child's raw wdf is passed
unclamped; and when WDF is not declared, 0 is passed as the wdf
regardless of DOC_LENGTH. -/
theorem synonym_wdf_clamp {α : Type} (spl : SynonymPostList α)
    (doclen unique_terms wdfdocmax : Nat)
    (hw : spl.want_wdf = get_sumpart_needs_wdf_ spl.wt.stats_needed)
    (hd : spl.needs_doclen =
      get_sumpart_needs_doclength_ spl.wt.stats_needed) :
    (get_sumpart_needs_wdf_ spl.wt.stats_needed = true →
     get_sumpart_needs_doclength_ spl.wt.stats_needed = true →
       (spl.get_weight_args doclen unique_terms wdfdocmax).wdf ≤ doclen ∧
       (spl.get_weight_args doclen unique_terms wdfdocmax).wdf ≤
         (spl.get_weight_args doclen unique_terms wdfdocmax).doclen) ∧
    (get_sumpart_needs_wdf_ spl.wt.stats_needed = true →
     get_sumpart_needs_doclength_ spl.wt.stats_needed = false →
       (spl.get_weight_args doclen unique_terms wdfdocmax).wdf =
         spl.pl.get_wdf) ∧
    (get_sumpart_needs_wdf_ spl.wt.stats_needed = false →
       (spl.get_weight_args doclen unique_terms wdfdocmax).wdf = 0) := by
  refine ⟨fun h1 h2 => ?_, fun h1 h2 => ?_, fun h1 => ?_⟩
  · have hwt : spl.want_wdf = true := by rw [hw, h1]
    have hdt : spl.needs_doclen = true := by rw [hd, h2]
    have hargw : (spl.get_weight_args doclen unique_terms wdfdocmax).wdf =
        if spl.pl.get_wdf > doclen then doclen else spl.pl.get_wdf := by
      simp [SynonymPostList.get_weight_args, hwt, hdt]
    have hargd : (spl.get_weight_args doclen unique_terms wdfdocmax).doclen =
        if spl.want_wdfdocmax then
          (if doclen = 0 then spl.treeDoclen else doclen)
        else doclen := by
      simp [SynonymPostList.get_weight_args]
    constructor
    · rw [hargw]
      split <;> omega
    · rw [hargw, hargd]
      by_cases hm : spl.want_wdfdocmax = true
      · rw [if_pos hm]
        by_cases h0 : doclen = 0
        · rw [if_pos h0]
          subst h0
          split <;> omega
        · rw [if_neg h0]
          split <;> omega
      · rw [if_neg hm]
        split <;> omega
  · have hwt : spl.want_wdf = true := by rw [hw, h1]
    have hdf : spl.needs_doclen = false := by rw [hd, h2]
    simp [SynonymPostList.get_weight_args, hwt, hdf]
  · have hwf : spl.want_wdf = false := by rw [hw, h1]
    simp [SynonymPostList.get_weight_args, hwf]

/-- A concrete SynonymPostList used by the C2 counterexample and witness:
its weight declares DOC_LENGTH but not WDF, and the child's raw wdf
is 5. -/
def splDoclenOnly : SynonymPostList Unit :=
  { pl := { next := fun _ => (), skipTo := fun _ _ => (), get_wdf := 5,
            get_docid := 1, count_matching_subqs := 3 },
    wt := { stats_needed := statValue .doc_length,
            sumpart := fun _ _ _ _ => 0, maxpart := 0 },
    want_wdf := get_sumpart_needs_wdf_ (statValue .doc_length),
    want_wdfdocmax := false,
    needs_doclen := get_sumpart_needs_doclength_ (statValue .doc_length),
    treeDoclen := 7 }

/-- Counterexample for C2 as stated: for a weight that declares exactly
one of the two statistics (DOC_LENGTH but not WDF), get_weight passes 0
as the wdf, not the child's raw wdf (5 here). -/
theorem synonym_wdf_clamp_cex :
    get_sumpart_needs_doclength_ splDoclenOnly.wt.stats_needed = true ∧
    get_sumpart_needs_wdf_ splDoclenOnly.wt.stats_needed = false ∧
    (splDoclenOnly.get_weight_args 3 0 0).wdf = 0 ∧
    splDoclenOnly.pl.get_wdf = 5 ∧
    (splDoclenOnly.get_weight_args 3 0 0).wdf ≠ splDoclenOnly.pl.get_wdf := by
  refine ⟨rfl, rfl, rfl, rfl, by decide⟩

/-- A concrete SynonymPostList whose weight declares both WDF and
DOC_LENGTH, used as the C2 witness instance. -/
def splBoth : SynonymPostList Unit :=
  { pl := { next := fun _ => (), skipTo := fun _ _ => (), get_wdf := 5,
            get_docid := 1, count_matching_subqs := 3 },
    wt := { stats_needed := need_stat (statValue .wdf)
              (statValue .doc_length),
            sumpart := fun _ _ _ _ => 0, maxpart := 0 },
    want_wdf := get_sumpart_needs_wdf_
      (need_stat (statValue .wdf) (statValue .doc_length)),
    want_wdfdocmax := false,
    needs_doclen := get_sumpart_needs_doclength_
      (need_stat (statValue .wdf) (statValue .doc_length)),
    treeDoclen := 7 }

/-- Witness for C2's amended theorem: with both statistics declared and a
raw child wdf of 5 against a document of length 3, the wdf passed is
clamped to at most 3. -/
theorem synonym_wdf_clamp_witness :
    (splBoth.get_weight_args 3 0 0).wdf ≤ 3 :=
  ((synonym_wdf_clamp splBoth 3 0 0 rfl rfl).1 rfl rfl).1

/-- Claim C4: SynonymPostList::count_matching_subqs() returns 1 for every
SynonymPostList, whatever the matching-subquery count of the wrapped
child tree is (so also when it wraps 1, 2 or 5 children), rather than
the sum of the children's counts. -/
theorem synonym_count_matching_subqs_one {α : Type}
    (spl : SynonymPostList α) :
    SynonymPostList.count_matching_subqs spl = 1 :=
  rfl

/-- Claim C5: SynonymPostList::next and SynonymPostList::skip_to discard
the combinator's own threshold argument: for every threshold w_min they
behave exactly as the wrapped child's next / skip_to invoked with
threshold 0. -/
theorem synonym_zero_threshold {α : Type} (spl : SynonymPostList α)
    (w_min : ℚ) (did : Nat) :
    SynonymPostList.next spl w_min = spl.pl.next 0 ∧
    SynonymPostList.skip_to spl did w_min = spl.pl.skipTo did 0 :=
  ⟨rfl, rfl⟩

/-- Modelled from the spec: the concrete scoring implementations
(weight.cc and the per-scheme .cc files with get_sumpart / get_maxpart /
get_sumextra / get_maxextra bodies) are not among the sampled sources,
only their declarations in weight.h.  The schemes whose behaviour the
spec pins down exactly are modelled here: Boolean (score and bound are
always 0), Coordinate match (one point per matching term, scaled by the
factor), and Dice coefficient (2·wqf·factor / (query_length +
unique_terms), bounded using the lower bound on unique terms per
document).  Each constructor carries the initialized instance's private
snapshot of the statistics it declared needing (and nothing else). -/
inductive ModelScheme
  | boolScheme
  | coordScheme (factor : ℚ)
  | diceScheme (factor : ℚ)
      (wqf query_length unique_terms_lower_bound : Nat)
deriving DecidableEq, Repr

/-- The need_stat calls made by each modelled scheme's constructor, from
weight.h: BoolWeight declares IS_BOOLWEIGHT_, CoordWeight declares
nothing, DiceCoeffWeight declares WQF, QUERY_LENGTH, UNIQUE_TERMS and
UNIQUE_TERMS_MIN. -/
def ModelScheme.declaredTrace : ModelScheme → List StatFlag
  | .boolScheme => [.is_boolweight]
  | .coordScheme _ => []
  | .diceScheme _ _ _ _ =>
      [.wqf, .query_length, .unique_terms, .unique_terms_min]

/-- Modelled from the spec: get_sumpart(wdf, doclen, unique_terms,
wdfdocmax) for the modelled schemes. -/
def ModelScheme.sumpart : ModelScheme → Nat → Nat → Nat → Nat → ℚ
  | .boolScheme, _, _, _, _ => 0
  | .coordScheme f, _, _, _, _ => f
  | .diceScheme f wqf ql _, _, _, uniq, _ =>
      (2 * (wqf : ℚ) * f) / ((ql : ℚ) + (uniq : ℚ))

/-- Modelled from the spec: get_maxpart() for the modelled schemes, the
analytic bound at the extremal declared statistic (for Dice, the lower
bound on unique terms per document). -/
def ModelScheme.maxpart : ModelScheme → ℚ
  | .boolScheme => 0
  | .coordScheme f => f
  | .diceScheme f wqf ql utlb =>
      (2 * (wqf : ℚ) * f) / ((ql : ℚ) + (utlb : ℚ))

/-- get_sumextra(doclen, unique_terms, wdfdocmax): none of the modelled
schemes overrides the default, which weight.h documents as always
returning 0. -/
def ModelScheme.sumextra : ModelScheme → Nat → Nat → Nat → ℚ
  | _, _, _, _ => 0

/-- get_maxextra(): the default documented in weight.h, always 0. -/
def ModelScheme.maxextra : ModelScheme → ℚ
  | _ => 0

/-- An input (wdf, doclen, unique_terms, wdfdocmax) together with a
scaling factor is consistent with the statistic bounds a modelled scheme
declared needing: for Dice, the number of unique terms respects the
declared lower bound, the query is nonempty and the scaling factor is
nonnegative; Boolean and Coordinate declared no bound statistics. -/
def ModelScheme.consistent : ModelScheme → Nat → Nat → Nat → Nat → Prop
  | .boolScheme, _, _, _, _ => True
  | .coordScheme _, _, _, _, _ => True
  | .diceScheme f _ ql utlb, _, _, uniq, _ =>
      utlb ≤ uniq ∧ 1 ≤ ql ∧ 0 ≤ f

instance (s : ModelScheme) (wdf doclen uniq wdm : Nat) :
    Decidable (ModelScheme.consistent s wdf doclen uniq wdm) := by
  cases s <;> simp only [ModelScheme.consistent] <;> infer_instance

/-- Claim C1: for every modelled initialized scheme and every input
consistent with the statistic bounds it declared needing,
get_sumpart ≤ get_maxpart and get_sumextra ≤ get_maxextra. -/
theorem sumpart_le_maxpart (s : ModelScheme) (wdf doclen uniq wdm : Nat)
    (h : ModelScheme.consistent s wdf doclen uniq wdm) :
    ModelScheme.sumpart s wdf doclen uniq wdm ≤ ModelScheme.maxpart s ∧
    ModelScheme.sumextra s doclen uniq wdm ≤ ModelScheme.maxextra s := by
  cases s with
  | boolScheme => exact ⟨le_refl 0, le_refl 0⟩
  | coordScheme f => exact ⟨le_refl f, le_refl 0⟩
  | diceScheme f wqf ql utlb =>
    obtain ⟨h1, h2, h3⟩ := h
    refine ⟨?_, le_refl 0⟩
    have hnum : (0 : ℚ) ≤ 2 * (wqf : ℚ) * f := by positivity
    have hql : (1 : ℚ) ≤ (ql : ℚ) := by exact_mod_cast h2
    have hden : (0 : ℚ) < (ql : ℚ) + (utlb : ℚ) := by
      have : (0 : ℚ) ≤ (utlb : ℚ) := by positivity
      linarith
    have hmono : (ql : ℚ) + (utlb : ℚ) ≤ (ql : ℚ) + (uniq : ℚ) := by
      have : (utlb : ℚ) ≤ (uniq : ℚ) := by exact_mod_cast h1
      linarith
    exact div_le_div_of_nonneg_left hnum hden hmono

/-- Witness for C1 at a concrete Dice instance and input. -/
theorem sumpart_le_maxpart_witness :
    ModelScheme.consistent (.diceScheme 1 2 3 1) 0 0 4 0 ∧
    ModelScheme.sumpart (.diceScheme 1 2 3 1) 0 0 4 0 ≤
      ModelScheme.maxpart (.diceScheme 1 2 3 1) :=
  ⟨⟨by decide, by decide, by decide⟩,
   (sumpart_le_maxpart (.diceScheme 1 2 3 1) 0 0 4 0
     ⟨by decide, by decide, by decide⟩).1⟩

/-- Claim C3: for every modelled scheme, two calls to get_sumpart
(respectively get_sumextra) whose arguments agree on every statistic the
scheme declared needing return identical output — the undeclared
arguments may differ arbitrarily.  (Independence of the ambient
statistics the instance did not declare holds by construction: the
initialized snapshot carries only declared statistics.) -/
theorem sumpart_pure (s : ModelScheme) (w1 d1 u1 m1 w2 d2 u2 m2 : Nat)
    (hw : StatFlag.wdf ∈ s.declaredTrace → w1 = w2)
    (hd : StatFlag.doc_length ∈ s.declaredTrace → d1 = d2)
    (hu : StatFlag.unique_terms ∈ s.declaredTrace → u1 = u2)
    (hm : StatFlag.wdf_doc_max ∈ s.declaredTrace → m1 = m2) :
    ModelScheme.sumpart s w1 d1 u1 m1 = ModelScheme.sumpart s w2 d2 u2 m2 ∧
    ModelScheme.sumextra s d1 u1 m1 = ModelScheme.sumextra s d2 u2 m2 := by
  cases s with
  | boolScheme => exact ⟨rfl, rfl⟩
  | coordScheme f => exact ⟨rfl, rfl⟩
  | diceScheme f wqf ql utlb =>
    have hu2 : u1 = u2 := hu (by simp [ModelScheme.declaredTrace])
    subst hu2
    exact ⟨rfl, rfl⟩

/-- Witness for C3: a Dice instance scored twice with wildly different
undeclared statistics (wdf, doclen, wdfdocmax) but the same declared
unique-terms count gives the same score. -/
theorem sumpart_pure_witness :
    ModelScheme.sumpart (.diceScheme 1 2 3 1) 0 5 4 0 =
      ModelScheme.sumpart (.diceScheme 1 2 3 1) 7 9 4 8 :=
  (sumpart_pure (.diceScheme 1 2 3 1) 0 5 4 0 7 9 4 8
    (by decide) (by decide) (by decide) (by decide)).1

/-- Modelled from the spec: the unit shipped to a remote shard (the
serialise / unserialise implementations in weight.cc and the per-scheme
.cc files are not among the sampled sources): a scheme name paired with
a self-delimiting encoding of the configuration parameters.  The
descriptors are the configured prototypes of the remotable schemes
embedded in this file. -/
inductive SchemeDesc
  | boolDesc
  | coordDesc
  | diceDesc
  | bm25Desc (k1 k2 k3 b mnl : ℚ)
  | bm25PlusDesc (k1 k2 k3 b mnl delta : ℚ)
deriving DecidableEq, Repr

/-- Modelled from the spec: serialise() paired with name(): the scheme
name and the encoded parameter list. -/
def SchemeDesc.serialise : SchemeDesc → String × List ℚ
  | .boolDesc => ("bool", [])
  | .coordDesc => ("coord", [])
  | .diceDesc => ("dicecoeff", [])
  | .bm25Desc k1 k2 k3 b mnl => ("bm25", [k1, k2, k3, b, mnl])
  | .bm25PlusDesc k1 k2 k3 b mnl d => ("bm25+", [k1, k2, k3, b, mnl, d])

/-- Modelled from the spec: unserialise(): look the scheme name up and
parse the expected number of parameters, failing (none) for an unknown
name or a malformed parameter encoding. -/
def SchemeDesc.unserialise : String × List ℚ → Option SchemeDesc
  | ("bool", []) => some .boolDesc
  | ("coord", []) => some .coordDesc
  | ("dicecoeff", []) => some .diceDesc
  | ("bm25", [k1, k2, k3, b, mnl]) => some (.bm25Desc k1 k2 k3 b mnl)
  | ("bm25+", [k1, k2, k3, b, mnl, d]) =>
      some (.bm25PlusDesc k1 k2 k3 b mnl d)
  | _ => none

/-- Claim C9: unserialise(serialise(x)) reproduces the very same scheme
descriptor, so the round-tripped instance, initialized from the same
statistics, returns a get_sumpart value identical to x's for every
input. -/
theorem serialise_roundtrip (x : SchemeDesc) :
    SchemeDesc.unserialise (SchemeDesc.serialise x) = some x := by
  cases x <;> rfl

end XapianVerify
